import Mathlib

/-!
Verification of the gesture-driven card navigation core of plexwrap.

The development shallowly embeds the `useSwipe` hook (deck/navigation state,
drag classifier, swipe-end resolver) and the `NavArea` tap/scroll
disambiguator of `WrapDisplay.tsx`.  React state updates become explicit
state passing; style mutations scheduled through `requestAnimationFrame`
are modelled as the effect they perform when the frame callback runs (the
DOM targets are taken to be present); the optional `onSwipe` callback is
modelled by recording the list of values it would be invoked with.
Coordinates, offsets and velocities are rationals; card indices are
integers.
-/

set_option autoImplicit false

namespace Plexwrap

/-- Deck state of the `useSwipe` hook: `currentIndex` and `direction`
(`useState(0)` for both). -/
structure NavState where
  currentIndex : Int
  direction : Int
deriving DecidableEq

/-- Initial hook state: `currentIndex = 0`, `direction = 0`. -/
def initialNavState : NavState := { currentIndex := 0, direction := 0 }

/-- Embedding of `goToNext` (src/unnamed/part_000:39-46).  Returns the new
state together with the list of arguments passed to `onSwipe`. -/
def goToNext (totalCards : Int) (s : NavState) : NavState × List Int :=
  if s.currentIndex < totalCards - 1 then
    ({ currentIndex := s.currentIndex + 1, direction := 1 }, [1])
  else (s, [])

/-- Embedding of `goToPrevious` (src/unnamed/part_000:48-55). -/
def goToPrevious (s : NavState) : NavState × List Int :=
  if s.currentIndex > 0 then
    ({ currentIndex := s.currentIndex - 1, direction := -1 }, [-1])
  else (s, [])

/-- Embedding of `goToIndex` (src/unnamed/part_000:57-66): guarded by
`index >= 0 && index < totalCards`; direction is
`index > currentIndex ? 1 : -1`. -/
def goToIndex (totalCards : Int) (index : Int) (s : NavState) : NavState × List Int :=
  if index ≥ 0 ∧ index < totalCards then
    ({ currentIndex := index,
       direction := if index > s.currentIndex then 1 else -1 },
     [if index > s.currentIndex then 1 else -1])
  else (s, [])

/-- A navigation request: one call to `goToNext`, `goToPrevious` or
`goToIndex k`. -/
inductive NavOp where
  | next : NavOp
  | previous : NavOp
  | go (k : Int) : NavOp
deriving DecidableEq

/-- Dispatch one navigation call on the deck state. -/
def applyNavOp (totalCards : Int) (s : NavState) : NavOp → NavState × List Int
  | NavOp.next => goToNext totalCards s
  | NavOp.previous => goToPrevious s
  | NavOp.go k => goToIndex totalCards k s

/-- Run a sequence of navigation calls, accumulating all `onSwipe`
emissions in order. -/
def runNavOps (totalCards : Int) (s : NavState) : List NavOp → NavState × List Int
  | [] => (s, [])
  | op :: ops =>
    let r := applyNavOp totalCards s op
    let rest := runNavOps totalCards r.1 ops
    (rest.1, r.2 ++ rest.2)

/-- One navigation call preserves the index bounds `[0, N-1]`. -/
theorem applyNavOp_index_bounds (totalCards : Int) (s : NavState) (op : NavOp)
    (h0 : 0 ≤ s.currentIndex) (h1 : s.currentIndex ≤ totalCards - 1) :
    0 ≤ (applyNavOp totalCards s op).1.currentIndex ∧
      (applyNavOp totalCards s op).1.currentIndex ≤ totalCards - 1 := by
  cases op with
  | next =>
    simp only [applyNavOp, goToNext]
    split <;> simp <;> omega
  | previous =>
    simp only [applyNavOp, goToPrevious]
    split <;> simp <;> omega
  | go k =>
    simp only [applyNavOp, goToIndex]
    split <;> simp <;> omega

/-- Running any sequence of navigation calls from a within-bounds state
stays within bounds. -/
theorem runNavOps_index_bounds (totalCards : Int) (ops : List NavOp) :
    ∀ s : NavState, 0 ≤ s.currentIndex → s.currentIndex ≤ totalCards - 1 →
      0 ≤ (runNavOps totalCards s ops).1.currentIndex ∧
        (runNavOps totalCards s ops).1.currentIndex ≤ totalCards - 1 := by
  induction ops with
  | nil => intro s h0 h1; simpa [runNavOps] using ⟨h0, h1⟩
  | cons op ops ih =>
    intro s h0 h1
    have hstep := applyNavOp_index_bounds totalCards s op h0 h1
    simpa [runNavOps] using ih (applyNavOp totalCards s op).1 hstep.1 hstep.2

/-- C1: for every deck with `N ≥ 1` cards and every finite sequence of
`goToNext`, `goToPrevious` and `goToIndex` calls starting from the initial
state (index 0), the current index stays in `[0, N-1]` after every call
(every prefix of a sequence is itself a sequence, so this covers every
intermediate state). -/
theorem swipe_index_always_in_bounds (totalCards : Int) (ops : List NavOp)
    (hN : 1 ≤ totalCards) :
    0 ≤ (runNavOps totalCards initialNavState ops).1.currentIndex ∧
      (runNavOps totalCards initialNavState ops).1.currentIndex ≤ totalCards - 1 :=
  runNavOps_index_bounds totalCards ops initialNavState (by simp [initialNavState])
    (by simp [initialNavState]; omega)

/-- Witness for C1 at `N = 3`, `ops = [next, next, previous, go 2]`. -/
theorem swipe_index_always_in_bounds_witness :
    (1 : Int) ≤ 3 ∧
      0 ≤ (runNavOps 3 initialNavState
            [NavOp.next, NavOp.next, NavOp.previous, NavOp.go 2]).1.currentIndex ∧
        (runNavOps 3 initialNavState
            [NavOp.next, NavOp.next, NavOp.previous, NavOp.go 2]).1.currentIndex ≤ 3 - 1 :=
  ⟨by decide,
   swipe_index_always_in_bounds 3 [NavOp.next, NavOp.next, NavOp.previous, NavOp.go 2]
     (by decide)⟩

/-- C2: `goToIndex k` leaves the state unchanged (and emits nothing) when
`k < 0` or `k ≥ N`; otherwise it sets `index = k` and
`direction = (k > i ? +1 : -1)`, so in particular the tie case `k = i`
yields `direction = -1`. -/
theorem goToIndex_spec (totalCards k : Int) (s : NavState) :
    (k < 0 ∨ k ≥ totalCards → goToIndex totalCards k s = (s, [])) ∧
      (0 ≤ k → k < totalCards →
        (goToIndex totalCards k s).1.currentIndex = k ∧
          (goToIndex totalCards k s).1.direction =
            (if k > s.currentIndex then 1 else -1)) ∧
      (0 ≤ k → k < totalCards → k = s.currentIndex →
        (goToIndex totalCards k s).1.direction = -1) := by
  refine ⟨?_, ?_, ?_⟩
  · intro h
    simp only [goToIndex]
    split
    · omega
    · rfl
  · intro h0 h1
    simp only [goToIndex]
    split
    · simp
    · omega
  · intro h0 h1 hk
    simp only [goToIndex]
    split
    · simp; omega
    · omega

/-- Witness for C2 at `N = 3`: out-of-range `k = 5` is a no-op, in-range
`k = 2` from index 0 sets index 2 and direction 1, and the tie `k = 0`
from index 0 gives direction -1. -/
theorem goToIndex_spec_witness :
    goToIndex 3 5 initialNavState = (initialNavState, []) ∧
      ((goToIndex 3 2 initialNavState).1.currentIndex = 2 ∧
        (goToIndex 3 2 initialNavState).1.direction = 1) ∧
      (goToIndex 3 0 initialNavState).1.direction = -1 := by
  refine ⟨(goToIndex_spec 3 5 initialNavState).1 (by omega), ?_, ?_⟩
  · have h := (goToIndex_spec 3 2 initialNavState).2.1 (by omega) (by omega)
    simpa [initialNavState] using h
  · exact (goToIndex_spec 3 0 initialNavState).2.2 (by omega) (by omega)
      (by simp [initialNavState])

/-- A 2D point with rational coordinates. -/
structure Point where
  x : ℚ
  y : ℚ
deriving DecidableEq

/-- The framer-motion `PanInfo` fields the hook reads: live point, total
offset from gesture start, and velocity. -/
structure PanInfo where
  point : Point
  offset : Point
  velocity : Point
deriving DecidableEq

/-- The inline styles the hook mutates: `overflowY` and `touchAction` on
the card root, all three on the nested `.story-card-body` region, and
`pointerEvents` on the interactive descendants (`a, button, input, select,
textarea`); only these fields are ever written by the code. -/
structure CardStyles where
  rootOverflowY : String
  rootTouchAction : String
  bodyOverflowY : String
  bodyTouchAction : String
  bodyPointerEvents : String
  interactivePointerEvents : String
deriving DecidableEq

/-- Modelled from the spec: the stylesheet giving the card surface its
resting CSS is not under src/, so the pre-drag default interaction state
is taken from the spec's description of the lock reversal as restoring
the defaults — vertical scrolling enabled (`overflow-y: auto`, which is
what the drag-end restore writes), default touch handling and pointer
interactivity (empty inline style). -/
def defaultCardStyles : CardStyles :=
  { rootOverflowY := "auto", rootTouchAction := "",
    bodyOverflowY := "auto", bodyTouchAction := "",
    bodyPointerEvents := "", interactivePointerEvents := "" }

/-- The InteractionLock: the style mutation scheduled by `handleDrag`
(src/unnamed/part_000:86-101) once a move is horizontal-dominant —
suppress vertical scroll, restrict touch handling to `pan-x`, disable
pointer events on the body region and interactive descendants. -/
def applyLock (_st : CardStyles) : CardStyles :=
  { rootOverflowY := "hidden", rootTouchAction := "pan-x",
    bodyOverflowY := "hidden", bodyTouchAction := "pan-x",
    bodyPointerEvents := "none", interactivePointerEvents := "none" }

/-- The lock reversal scheduled unconditionally by `handleDragEnd`
(src/unnamed/part_000:120-136). -/
def restoreStyles (_st : CardStyles) : CardStyles :=
  { rootOverflowY := "auto", rootTouchAction := "",
    bodyOverflowY := "auto", bodyTouchAction := "",
    bodyPointerEvents := "", interactivePointerEvents := "" }

/-- Combined drag-related state: the hook's `dragStart` `useState` slot
and the card surface styles the scheduled frame callbacks mutate. -/
structure DragState where
  dragStart : Option Point
  styles : CardStyles
deriving DecidableEq

/-- Embedding of `handleDragStart` (src/unnamed/part_000:68-73): records
the contact origin. -/
def handleDragStart (s : DragState) (info : PanInfo) : DragState :=
  { s with dragStart := some info.point }

/-- Embedding of `handleDrag` (src/unnamed/part_000:75-105).  Returns the
new state and whether a lock application was scheduled.  With no recorded
`dragStart` the handler returns immediately. -/
def handleDrag (s : DragState) (info : PanInfo) : DragState × Bool :=
  match s.dragStart with
  | none => (s, false)
  | some origin =>
    let deltaY := |info.point.y - origin.y|
    let deltaX := |info.point.x - origin.x|
    if deltaX > 10 ∧ deltaX > deltaY * (1.2 : ℚ) then
      ({ s with styles := applyLock s.styles }, true)
    else (s, false)

/-- Which navigation call the swipe-end resolver makes. -/
inductive SwipeNav where
  | prev : SwipeNav
  | next : SwipeNav
  | none : SwipeNav
deriving DecidableEq

/-- `swipeThreshold` constant of `handleDragEnd`. -/
def swipeThreshold : ℚ := 80

/-- `swipeVelocity` constant of `handleDragEnd`. -/
def swipeVelocity : ℚ := 250

/-- `verticalThreshold` constant of `handleDragEnd`. -/
def verticalThreshold : ℚ := 60

/-- The navigation decision of `handleDragEnd`
(src/unnamed/part_000:115-154): which of `goToPrevious` / `goToNext` is
scheduled, if any. -/
def resolveSwipeNav (info : PanInfo) : SwipeNav :=
  let horizontalMovement := |info.offset.x|
  let verticalMovement := |info.offset.y|
  let isHorizontalSwipe := horizontalMovement > verticalMovement * (1.5 : ℚ)
  if isHorizontalSwipe ∧
      (horizontalMovement > swipeThreshold ∨ |info.velocity.x| > swipeVelocity) ∧
      verticalMovement < verticalThreshold then
    if info.offset.x > 0 ∨ info.velocity.x > 0 then SwipeNav.prev else SwipeNav.next
  else SwipeNav.none

/-- Embedding of `handleDragEnd` (src/unnamed/part_000:107-160): schedules
the unconditional style restore, resolves the navigation decision, and
clears `dragStart`. -/
def handleDragEnd (s : DragState) (info : PanInfo) : DragState × SwipeNav :=
  ({ dragStart := Option.none, styles := restoreStyles s.styles }, resolveSwipeNav info)

/-- One raw drag event delivered to the hook. -/
inductive DragEvent where
  | start (info : PanInfo) : DragEvent
  | move (info : PanInfo) : DragEvent
  | stop (info : PanInfo) : DragEvent
deriving DecidableEq

/-- Dispatch one drag event. -/
def dragStep (s : DragState) : DragEvent → DragState
  | DragEvent.start info => handleDragStart s info
  | DragEvent.move info => (handleDrag s info).1
  | DragEvent.stop info => (handleDragEnd s info).1

/-- Run a sequence of drag events. -/
def runDrag (s : DragState) : List DragEvent → DragState
  | [] => s
  | e :: es => runDrag (dragStep s e) es

/-- Running an event list that ends in one extra event equals one step
after running the prefix. -/
theorem runDrag_append (es : List DragEvent) :
    ∀ (s : DragState) (e : DragEvent),
      runDrag s (es ++ [e]) = dragStep (runDrag s es) e := by
  induction es with
  | nil => intro s e; rfl
  | cons e0 es ih => intro s e; simpa [runDrag] using ih (dragStep s e0) e

/-- C5: during an active drag session with origin `origin`, a move applies
the InteractionLock exactly when `deltaX > 10` and `deltaX > deltaY * 1.2`
(deltas taken as absolute distances from the origin), and otherwise leaves
the state untouched; re-triggering the lock while it is already applied
has no additional effect. -/
theorem handleDrag_lock_spec (s : DragState) (origin : Point) (info : PanInfo)
    (h : s.dragStart = some origin) :
    (handleDrag s info =
      if |info.point.x - origin.x| > 10 ∧
          |info.point.x - origin.x| > |info.point.y - origin.y| * (1.2 : ℚ) then
        ({ s with styles := applyLock s.styles }, true)
      else (s, false)) ∧
      ∀ st : CardStyles, applyLock (applyLock st) = applyLock st := by
  obtain ⟨ds, st0⟩ := s
  cases ds with
  | none => exact absurd h (by simp)
  | some o =>
    have ho : o = origin := by simpa using h
    subst ho
    exact ⟨rfl, fun st => rfl⟩

/-- Witness for C5: origin `(0,0)`, move to `(50, 3)` triggers the lock
(`50 > 10` and `50 > 3 * 1.2`); the resulting styles are the locked
styles. -/
theorem handleDrag_lock_spec_witness :
    (handleDrag { dragStart := some ⟨0, 0⟩, styles := defaultCardStyles }
        { point := ⟨50, 3⟩, offset := ⟨50, 3⟩, velocity := ⟨0, 0⟩ }).2 = true := by
  have h := (handleDrag_lock_spec
    { dragStart := some ⟨0, 0⟩, styles := defaultCardStyles } ⟨0, 0⟩
    { point := ⟨50, 3⟩, offset := ⟨50, 3⟩, velocity := ⟨0, 0⟩ } rfl).1
  rw [h, if_pos (by norm_num)]

/-- C3 as stated is false on the code: at final offset `(80, 0)` with
release velocity `0`, the claimed condition (with non-strict thresholds
`|dx| ≥ 80` / `|vx| ≥ 250`) holds, yet the resolver makes no navigation
call, because the code compares strictly (`horizontalMovement >
swipeThreshold`, `|velocity.x| > swipeVelocity`). -/
theorem resolveSwipeNav_ge_counterexample :
    resolveSwipeNav { point := ⟨0, 0⟩, offset := ⟨80, 0⟩, velocity := ⟨0, 0⟩ } =
        SwipeNav.none ∧
      |(80 : ℚ)| > |(0 : ℚ)| * (1.5 : ℚ) ∧
        (|(80 : ℚ)| ≥ 80 ∨ |(0 : ℚ)| ≥ 250) ∧ |(0 : ℚ)| < 60 := by
  constructor
  · simp only [resolveSwipeNav, swipeThreshold, swipeVelocity, verticalThreshold]
    rw [if_neg (by norm_num)]
  · norm_num

/-- C3 amended: the resolver navigates exactly when `|dx| > |dy| * 1.5`
and (`|dx| > 80` strictly or `|vx| > 250` strictly) and `|dy| < 60`; when
it navigates it resolves to `goToPrevious` if `dx > 0` or `vx > 0` and to
`goToNext` otherwise. -/
theorem resolveSwipeNav_spec (info : PanInfo) :
    (resolveSwipeNav info ≠ SwipeNav.none ↔
      |info.offset.x| > |info.offset.y| * (1.5 : ℚ) ∧
        (|info.offset.x| > 80 ∨ |info.velocity.x| > 250) ∧
        |info.offset.y| < 60) ∧
      (|info.offset.x| > |info.offset.y| * (1.5 : ℚ) ∧
          (|info.offset.x| > 80 ∨ |info.velocity.x| > 250) ∧
          |info.offset.y| < 60 →
        resolveSwipeNav info =
          if info.offset.x > 0 ∨ info.velocity.x > 0 then SwipeNav.prev
          else SwipeNav.next) := by
  simp only [resolveSwipeNav, swipeThreshold, swipeVelocity, verticalThreshold]
  split
  case isTrue h =>
    refine ⟨⟨fun _ => h, fun _ => ?_⟩, fun _ => rfl⟩
    split
    · exact fun hc => SwipeNav.noConfusion hc
    · exact fun hc => SwipeNav.noConfusion hc
  case isFalse h =>
    exact ⟨⟨fun hc => absurd rfl hc, fun hb => absurd hb h⟩, fun hb => absurd hb h⟩

/-- Witness for C3 (amended) at the spec's own test vector `dx = 100`,
`dy = 10`, `vx = 0`: thresholds met, `dx > 0`, so the resolver picks
`goToPrevious`. -/
theorem resolveSwipeNav_spec_witness :
    resolveSwipeNav { point := ⟨0, 0⟩, offset := ⟨100, 10⟩, velocity := ⟨0, 0⟩ } =
      SwipeNav.prev := by
  have h := (resolveSwipeNav_spec
    { point := ⟨0, 0⟩, offset := ⟨100, 10⟩, velocity := ⟨0, 0⟩ }).2 (by norm_num)
  rw [h, if_pos (by norm_num)]

/-- C4: after any drag-end — whatever drag events preceded it, whether or
not any of them triggered the InteractionLock, and whatever the
navigation outcome — the scheduled reversal leaves the card root's,
nested body region's, and interactive descendants' scroll /
touch-handling / pointer-interactivity state at the pre-drag default: no
leaked lock. -/
theorem dragEnd_restores_default_styles (s : DragState) (es : List DragEvent)
    (info : PanInfo) :
    (runDrag s (es ++ [DragEvent.stop info])).styles = defaultCardStyles := by
  rw [runDrag_append]
  rfl

/-- C9: a drag-move with no active drag session (`dragStart` empty) is a
complete no-op — the state is unchanged and no lock application is
scheduled — and every drag-end clears the session, so a lock can only be
applied between a drag-start and its drag-end. -/
theorem handleDrag_no_session_noop (s : DragState) (info : PanInfo)
    (h : s.dragStart = Option.none) :
    handleDrag s info = (s, false) ∧
      ∀ (s' : DragState) (info' : PanInfo),
        (handleDragEnd s' info').1.dragStart = Option.none := by
  obtain ⟨ds, st0⟩ := s
  cases ds with
  | none => exact ⟨rfl, fun s' info' => rfl⟩
  | some o => exact absurd h (by simp)

/-- Witness for C9: a session-free state with default styles; a move at
`(50, 3)` — which would trigger the lock inside a session — does
nothing. -/
theorem handleDrag_no_session_noop_witness :
    handleDrag { dragStart := Option.none, styles := defaultCardStyles }
        { point := ⟨50, 3⟩, offset := ⟨50, 3⟩, velocity := ⟨0, 0⟩ } =
      ({ dragStart := Option.none, styles := defaultCardStyles }, false) :=
  (handleDrag_no_session_noop
    { dragStart := Option.none, styles := defaultCardStyles }
    { point := ⟨50, 3⟩, offset := ⟨50, 3⟩, velocity := ⟨0, 0⟩ } rfl).1

/-- The `touchStartRef` payload of `NavArea`
(src/frontend/src/components/WrapDisplay.tsx:22-24): contact origin and
start timestamp. -/
structure TouchRecord where
  x : ℚ
  y : ℚ
  time : ℚ
deriving DecidableEq

/-- State of one `NavArea` hot zone: `touchStartRef`, `touchHandledRef`,
the `isActive` visual flag, and the pending `setTimeout` deadline that
clears `touchHandledRef` 300ms after a touch-end (at most one such
timeout is pending in the single-contact traces considered here). -/
structure NavAreaState where
  touchStartRef : Option TouchRecord
  touchHandled : Bool
  isActive : Bool
  resetDeadline : Option ℚ
deriving DecidableEq

/-- Initial zone state: no contact, flag clear, inactive, no pending
timeout. -/
def initialNavAreaState : NavAreaState :=
  { touchStartRef := Option.none, touchHandled := false, isActive := false,
    resetDeadline := Option.none }

/-- Fire the pending `setTimeout` callback if its deadline has passed at
the current time: it clears `touchHandledRef`
(WrapDisplay.tsx:92-94). -/
def fireDueTimeout (now : ℚ) (s : NavAreaState) : NavAreaState :=
  match s.resetDeadline with
  | Option.none => s
  | some d =>
    if d ≤ now then { s with touchHandled := false, resetDeadline := Option.none }
    else s

/-- Embedding of `handleTouchStart` (WrapDisplay.tsx:28-38). -/
def handleTouchStart (disabled : Bool) (x y t : ℚ) (s : NavAreaState) : NavAreaState :=
  if disabled then s
  else { s with touchHandled := false, touchStartRef := some ⟨x, y, t⟩,
                isActive := true }

/-- Embedding of `handleTouchMove` (WrapDisplay.tsx:40-58).  Returns the
new state and whether the browser default was suppressed
(`preventDefault`). -/
def handleTouchMove (x y : ℚ) (s : NavAreaState) : NavAreaState × Bool :=
  match s.touchStartRef with
  | Option.none => (s, false)
  | some start =>
    let deltaX := |x - start.x|
    let deltaY := |y - start.y|
    if deltaY > 5 ∧ deltaY > deltaX * (0.5 : ℚ) then
      ({ s with isActive := false, touchStartRef := Option.none }, false)
    else if deltaX > 5 ∧ deltaX > deltaY * 2 then (s, true)
    else (s, false)

/-- Embedding of `handleTouchEnd` (WrapDisplay.tsx:60-95).  Returns the
new state, the number of `onClick` invocations, and whether the default
was suppressed. -/
def handleTouchEnd (disabled : Bool) (x y t : ℚ) (s : NavAreaState) :
    NavAreaState × Nat × Bool :=
  match s.touchStartRef with
  | Option.none => ({ s with isActive := false }, 0, false)
  | some start =>
    if disabled then ({ s with isActive := false }, 0, false)
    else
      let deltaX := |x - start.x|
      let deltaY := |y - start.y|
      let deltaTime := t - start.time
      if deltaX < 10 ∧ deltaY < 10 ∧ deltaTime < 300 then
        ({ s with touchHandled := true, isActive := false,
                  touchStartRef := Option.none, resetDeadline := some (t + 300) },
         1, true)
      else if deltaX > deltaY ∧ deltaX > 20 ∧ deltaTime < 500 then
        ({ s with touchHandled := true, isActive := false,
                  touchStartRef := Option.none, resetDeadline := some (t + 300) },
         1, true)
      else
        ({ s with isActive := false, touchStartRef := Option.none,
                  resetDeadline := some (t + 300) }, 0, false)

/-- Embedding of the synthetic-click handler `handleClick`
(WrapDisplay.tsx:97-107). -/
def handleClick (disabled : Bool) (s : NavAreaState) : NavAreaState × Nat × Bool :=
  if disabled then (s, 0, false)
  else if s.touchHandled then (s, 0, true)
  else (s, 1, true)

/-- One event delivered to a hot zone (touch events and the synthetic
click), tagged with the wall-clock time at which it is dispatched so the
pending timeout can be modelled. -/
inductive ZoneEvent where
  | touchStart (x y t : ℚ) : ZoneEvent
  | touchMove (x y t : ℚ) : ZoneEvent
  | touchEnd (x y t : ℚ) : ZoneEvent
  | click (t : ℚ) : ZoneEvent
deriving DecidableEq

/-- Dispatch one zone event: any due timeout fires first, then the
handler runs.  Returns the new state, actions fired, and whether the
default was suppressed. -/
def zoneStep (disabled : Bool) (s : NavAreaState) : ZoneEvent → NavAreaState × Nat × Bool
  | ZoneEvent.touchStart x y t =>
    (handleTouchStart disabled x y t (fireDueTimeout t s), 0, false)
  | ZoneEvent.touchMove x y t =>
    let r := handleTouchMove x y (fireDueTimeout t s)
    (r.1, 0, r.2)
  | ZoneEvent.touchEnd x y t => handleTouchEnd disabled x y t (fireDueTimeout t s)
  | ZoneEvent.click t => handleClick disabled (fireDueTimeout t s)

/-- Run a sequence of zone events, counting all actions fired. -/
def runZone (disabled : Bool) (s : NavAreaState) : List ZoneEvent → NavAreaState × Nat
  | [] => (s, 0)
  | e :: es =>
    let r := zoneStep disabled s e
    let rest := runZone disabled r.1 es
    (rest.1, r.2.1 + rest.2)

/-- C6: on an enabled hot zone, a tap (`|dx| < 10`, `|dy| < 10`,
`elapsed < 300`) invokes the bound action exactly once at touch-end, and
a synthetic click arriving within the 300ms de-duplication window adds
zero further invocations: the action fires at most once per physical
contact. -/
theorem tap_fires_exactly_once (x0 y0 t0 x1 y1 t1 t2 : ℚ)
    (hdx : |x1 - x0| < 10) (hdy : |y1 - y0| < 10) (hdt : t1 - t0 < 300)
    (ht2 : t2 < t1 + 300) :
    (runZone false initialNavAreaState
        [ZoneEvent.touchStart x0 y0 t0, ZoneEvent.touchEnd x1 y1 t1]).2 = 1 ∧
      (runZone false initialNavAreaState
        [ZoneEvent.touchStart x0 y0 t0, ZoneEvent.touchEnd x1 y1 t1,
          ZoneEvent.click t2]).2 = 1 := by
  have h1 : zoneStep false initialNavAreaState (ZoneEvent.touchStart x0 y0 t0) =
      ({ touchStartRef := some ⟨x0, y0, t0⟩, touchHandled := false,
         isActive := true, resetDeadline := Option.none }, 0, false) := rfl
  have h2 : zoneStep false
      ({ touchStartRef := some ⟨x0, y0, t0⟩, touchHandled := false,
         isActive := true, resetDeadline := Option.none } : NavAreaState)
      (ZoneEvent.touchEnd x1 y1 t1) =
      ({ touchStartRef := Option.none, touchHandled := true, isActive := false,
         resetDeadline := some (t1 + 300) }, 1, true) := by
    simp only [zoneStep, fireDueTimeout, handleTouchEnd]
    rw [if_pos (show |x1 - x0| < 10 ∧ |y1 - y0| < 10 ∧ t1 - t0 < 300 from
      ⟨hdx, hdy, hdt⟩)]
    simp
  have hf : fireDueTimeout t2
      ({ touchStartRef := Option.none, touchHandled := true, isActive := false,
         resetDeadline := some (t1 + 300) } : NavAreaState) =
      { touchStartRef := Option.none, touchHandled := true, isActive := false,
        resetDeadline := some (t1 + 300) } := by
    simp only [fireDueTimeout]
    rw [if_neg (show ¬ t1 + 300 ≤ t2 by linarith)]
  have h3 : zoneStep false
      ({ touchStartRef := Option.none, touchHandled := true, isActive := false,
         resetDeadline := some (t1 + 300) } : NavAreaState) (ZoneEvent.click t2) =
      ({ touchStartRef := Option.none, touchHandled := true, isActive := false,
         resetDeadline := some (t1 + 300) }, 0, true) := by
    simp only [zoneStep]
    rw [hf]
    rfl
  constructor
  · simp only [runZone, h1, h2]
  · simp only [runZone, h1, h2, h3]

/-- Witness for C6 at the spec's test vector: tap at offset `(2, 2)` after
50ms, synthetic click 150ms later — one action in total, with and without
the trailing click. -/
theorem tap_fires_exactly_once_witness :
    (runZone false initialNavAreaState
        [ZoneEvent.touchStart 0 0 0, ZoneEvent.touchEnd 2 2 50]).2 = 1 ∧
      (runZone false initialNavAreaState
        [ZoneEvent.touchStart 0 0 0, ZoneEvent.touchEnd 2 2 50,
          ZoneEvent.click 200]).2 = 1 :=
  tap_fires_exactly_once 0 0 0 2 2 50 200 (by norm_num) (by norm_num)
    (by norm_num) (by norm_num)

/-- C7: in an armed session, a touch-move whose deltas satisfy `|dy| > 5`
and `|dy| > |dx| * 0.5` clears the session back to idle without
suppressing the browser default, and no action fires on any subsequent
touch-end of that contact, however fast the release. -/
theorem vertical_move_cancels_session (x0 y0 t0 x1 y1 tm : ℚ)
    (hdy : |y1 - y0| > 5) (hdom : |y1 - y0| > |x1 - x0| * (0.5 : ℚ)) :
    zoneStep false
        ({ touchStartRef := some ⟨x0, y0, t0⟩, touchHandled := false,
           isActive := true, resetDeadline := Option.none } : NavAreaState)
        (ZoneEvent.touchMove x1 y1 tm) =
      ({ touchStartRef := Option.none, touchHandled := false, isActive := false,
         resetDeadline := Option.none }, 0, false) ∧
      ∀ x2 y2 t2 : ℚ,
        (runZone false initialNavAreaState
          [ZoneEvent.touchStart x0 y0 t0, ZoneEvent.touchMove x1 y1 tm,
            ZoneEvent.touchEnd x2 y2 t2]).2 = 0 := by
  have h2 : zoneStep false
      ({ touchStartRef := some ⟨x0, y0, t0⟩, touchHandled := false,
         isActive := true, resetDeadline := Option.none } : NavAreaState)
      (ZoneEvent.touchMove x1 y1 tm) =
      ({ touchStartRef := Option.none, touchHandled := false, isActive := false,
         resetDeadline := Option.none }, 0, false) := by
    simp only [zoneStep, fireDueTimeout, handleTouchMove]
    rw [if_pos (show |y1 - y0| > 5 ∧ |y1 - y0| > |x1 - x0| * (0.5 : ℚ) from
      ⟨hdy, hdom⟩)]
  refine ⟨h2, fun x2 y2 t2 => ?_⟩
  have h1 : zoneStep false initialNavAreaState (ZoneEvent.touchStart x0 y0 t0) =
      ({ touchStartRef := some ⟨x0, y0, t0⟩, touchHandled := false,
         isActive := true, resetDeadline := Option.none }, 0, false) := rfl
  have h3 : zoneStep false
      ({ touchStartRef := Option.none, touchHandled := false, isActive := false,
         resetDeadline := Option.none } : NavAreaState)
      (ZoneEvent.touchEnd x2 y2 t2) =
      ({ touchStartRef := Option.none, touchHandled := false, isActive := false,
         resetDeadline := Option.none }, 0, false) := rfl
  simp only [runZone, h1, h2, h3]

/-- Witness for C7 at the spec's test vector `dx = 10`, `dy = 50`: the
move cancels the session and a fast release 20ms later fires nothing. -/
theorem vertical_move_cancels_session_witness :
    (runZone false initialNavAreaState
      [ZoneEvent.touchStart 0 0 0, ZoneEvent.touchMove 10 50 20,
        ZoneEvent.touchEnd 10 50 40]).2 = 0 :=
  (vertical_move_cancels_session 0 0 0 10 50 20 (by norm_num) (by norm_num)).2
    10 50 40

/-- C8 as stated is false on the code: with one card and current index 0,
`goToIndex 0` is in range, commits no index transition (the index stays
0), yet emits `onSwipe(-1)` — so `onNavigate` is not fired only on
committed transitions. -/
theorem goToIndex_emits_without_transition :
    (goToIndex 1 0 initialNavState).2 = [-1] ∧
      (goToIndex 1 0 initialNavState).1.currentIndex =
        initialNavState.currentIndex := by
  constructor <;> rfl

/-- C8 amended: `goToNext` and `goToPrevious` emit exactly one
`onNavigate` with the sign of the transition on every committed
transition and none at a boundary; an in-range `goToIndex k` always emits
exactly one `onNavigate((k > i) ? +1 : -1)` — even when `k` equals the
current index, in which case no index change occurs — and an out-of-range
`goToIndex` emits none. -/
theorem onNavigate_emission_spec (totalCards k : Int) (s : NavState) :
    (s.currentIndex < totalCards - 1 →
        (goToNext totalCards s).2 = [1] ∧
          (goToNext totalCards s).1.currentIndex = s.currentIndex + 1) ∧
      (¬ s.currentIndex < totalCards - 1 → goToNext totalCards s = (s, [])) ∧
      (0 < s.currentIndex →
        (goToPrevious s).2 = [-1] ∧
          (goToPrevious s).1.currentIndex = s.currentIndex - 1) ∧
      (¬ 0 < s.currentIndex → goToPrevious s = (s, [])) ∧
      (0 ≤ k → k < totalCards →
        (goToIndex totalCards k s).2 =
          [if k > s.currentIndex then 1 else -1]) ∧
      (k < 0 ∨ totalCards ≤ k → goToIndex totalCards k s = (s, [])) := by
  refine ⟨?_, ?_, ?_, ?_, ?_, ?_⟩
  · intro h
    simp only [goToNext]
    rw [if_pos h]
    exact ⟨rfl, rfl⟩
  · intro h
    simp only [goToNext]
    rw [if_neg h]
  · intro h
    simp only [goToPrevious]
    rw [if_pos h]
    exact ⟨rfl, rfl⟩
  · intro h
    simp only [goToPrevious]
    rw [if_neg h]
  · intro h0 h1
    simp only [goToIndex]
    rw [if_pos ⟨h0, h1⟩]
  · intro h
    simp only [goToIndex]
    rw [if_neg (by omega)]

/-- Witness for C8 (amended) at `N = 3`: `goToNext` from index 0 emits
`[1]`; `goToNext` at the upper boundary (index 2) emits nothing;
`goToPrevious` from index 1 emits `[-1]`; `goToPrevious` at index 0 emits
nothing; the tie `goToIndex 0` from index 0 emits `[-1]`; the
out-of-range `goToIndex 5` emits nothing. -/
theorem onNavigate_emission_spec_witness :
    ((goToNext 3 initialNavState).2 = [1] ∧
        (goToNext 3 initialNavState).1.currentIndex = 0 + 1) ∧
      goToNext 3 { currentIndex := 2, direction := 1 } =
        ({ currentIndex := 2, direction := 1 }, []) ∧
      ((goToPrevious { currentIndex := 1, direction := 1 }).2 = [-1] ∧
        (goToPrevious { currentIndex := 1, direction := 1 }).1.currentIndex = 1 - 1) ∧
      goToPrevious initialNavState = (initialNavState, []) ∧
      (goToIndex 3 0 initialNavState).2 = [if (0 : Int) > 0 then 1 else -1] ∧
      goToIndex 3 5 initialNavState = (initialNavState, []) := by
  refine ⟨?_, ?_, ?_, ?_, ?_, ?_⟩
  · exact (onNavigate_emission_spec 3 0 initialNavState).1 (by norm_num [initialNavState])
  · exact (onNavigate_emission_spec 3 0 { currentIndex := 2, direction := 1 }).2.1
      (by norm_num)
  · exact (onNavigate_emission_spec 3 0 { currentIndex := 1, direction := 1 }).2.2.1
      (by norm_num)
  · exact (onNavigate_emission_spec 3 0 initialNavState).2.2.2.1
      (by norm_num [initialNavState])
  · exact (onNavigate_emission_spec 3 0 initialNavState).2.2.2.2.1
      (by norm_num) (by norm_num)
  · exact (onNavigate_emission_spec 3 5 initialNavState).2.2.2.2.2
      (by norm_num)

/-- Any single navigation call on the empty deck from the initial state
is a no-op with no emission. -/
theorem applyNavOp_empty_deck (op : NavOp) :
    applyNavOp 0 initialNavState op = (initialNavState, []) := by
  cases op with
  | next =>
    simp only [applyNavOp, goToNext, initialNavState]
    rw [if_neg (by omega)]
  | previous =>
    simp only [applyNavOp, goToPrevious, initialNavState]
    rw [if_neg (by omega)]
  | go k =>
    simp only [applyNavOp, goToIndex, initialNavState]
    rw [if_neg (by omega)]

/-- C10: with `totalCards = 0` the hook still initializes `currentIndex`
to 0 — outside the empty valid range — and every sequence of `goToNext`,
`goToPrevious` and `goToIndex` calls is a no-op: the state stays at index
0 and direction 0 forever and nothing is ever emitted. -/
theorem empty_deck_stays_at_zero (ops : List NavOp) :
    initialNavState.currentIndex = 0 ∧
      ¬ (0 ≤ initialNavState.currentIndex ∧
          initialNavState.currentIndex ≤ 0 - 1) ∧
      runNavOps 0 initialNavState ops = (initialNavState, []) := by
  refine ⟨rfl, by simp [initialNavState], ?_⟩
  induction ops with
  | nil => rfl
  | cons op ops ih => simp [runNavOps, applyNavOp_empty_deck op, ih]

end Plexwrap
